import Mathlib

/-!
Verification of the document-search core of Texas-Quantitative/tqfaAPI-v2.

The core under specification is the search-and-fallback-and-format pipeline
of `api/search_index_manager.py` (class `SearchIndexManager`): query
execution with a single keyword-based fallback (`semantic_search`), keyword
extraction (`_extract_keywords`), and deterministic result formatting.
That source file is not part of the files provided under `src/`; only its
test suite (`src/tests/test_document_processing_phase_0_1.py`) is.  The
definitions below are therefore modelled from the specification (spec.md
sections 3, 4.1 to 4.3, 6, 7), constrained by the concrete expectations of
the test suite (record field names `token`, `title`, `@search.score`; the
`score: 0.92` two-decimal format; the run of `=` separator characters; the
`SEARCH SUMMARY: Found N relevant document sections` summary line).

Modelling conventions:
  * relevance scores (floats in `[0,1]` in the source) are represented
    exactly as integer hundredths (`95` stands for `0.95`), so that the
    two-decimal-place formatting is exact and no floating point is needed;
  * the formatter is modelled at the granularity of output lines
    (`List String`), joined with a newline into the final text block;
  * the external search client is a parameter
    `String → Except SearchError (List SearchRecord)`: it either yields a
    record list or raises;
  * the controller additionally returns the ordered list of query strings
    it sent to the client, so that call-count claims are statable.
-/

/-- Modelled from the spec: a transport/timeout/authentication failure
raised by the external search client (spec.md section 7); the concrete
exception type lives in the absent source file `api/search_index_manager.py`. -/
structure SearchError where
  message : String
deriving DecidableEq

/-- Modelled from the spec: one loosely-typed record emitted by the external
search client (spec.md section 6).  Field names follow the mock records of
`src/tests/test_document_processing_phase_0_1.py`: `token` is the content
field, `title` the document name, `score` the numeric `@search.score` field
(in integer hundredths).  Every field may be missing. -/
structure SearchRecord where
  token : Option String := none
  title : Option String := none
  score : Option Nat := none
deriving DecidableEq

/-- Modelled from the spec: one matched chunk from the index (spec.md
section 3, `SearchHit`), with `relevanceScore` in integer hundredths. -/
structure SearchHit where
  content : String
  sourceTitle : String
  relevanceScore : Nat
deriving DecidableEq

/-- Modelled from the spec: the mapping from a loosely-typed client record
onto a `SearchHit` (spec.md sections 6 and 9): any missing field is
substituted with the type's zero-value (empty string, score `0`), never an
error.  The source function is in the absent `api/search_index_manager.py`. -/
def recordToHit (r : SearchRecord) : SearchHit :=
  { content := r.token.getD ""
    sourceTitle := r.title.getD ""
    relevanceScore := r.score.getD 0 }

/-- Modelled from the spec: the fixed stop-word list of the keyword
extractor (spec.md section 4.3: articles and the listed common
interrogatives; exact membership is an implementation choice). -/
def STOP_WORDS : List String :=
  ["what", "is", "the", "how", "are", "in", "of", "who", "a", "an"]

/-- Modelled from the spec: tokenization on whitespace/punctuation
boundaries with lower-casing (spec.md section 4.3).  Alphanumeric runs are
collected (each character lower-cased); every other character is a
boundary.  `cur` holds the current run in reverse. -/
def splitTokens : List Char → List Char → List String
  | [], cur => if cur.isEmpty then [] else [String.mk cur.reverse]
  | c :: rest, cur =>
    if c.isAlphanum then
      splitTokens rest (c.toLower :: cur)
    else if cur.isEmpty then
      splitTokens rest []
    else
      String.mk cur.reverse :: splitTokens rest []

/-- Modelled from the spec: the tokenizer applied to a question. -/
def tokenize (q : String) : List String :=
  splitTokens q.data []

/-- Modelled from the spec: a token is numeric when it is a non-empty run
of digits (spec.md section 4.3: tokens of length at most 2 are dropped
unless they are numeric). -/
def isNumericTok (t : String) : Bool :=
  !t.data.isEmpty && t.data.all Char.isDigit

/-- Modelled from the spec: the filtering policy of the keyword extractor
(spec.md section 4.3): drop stop words, and drop tokens of length at most 2
unless numeric. -/
def keepToken (t : String) : Bool :=
  decide (t ∉ STOP_WORDS) && (decide (2 < t.length) || isNumericTok t)

/-- Modelled from the spec: order-preserving de-duplication (spec.md
section 4.3: the same token never appears twice; section 4.2 note: the
reference behavior joins keywords in extraction order, keeping the first
occurrence).  `seen` holds the tokens already emitted. -/
def dedupAux (seen : List String) : List String → List String
  | [] => []
  | t :: rest =>
    if t ∈ seen then dedupAux seen rest
    else t :: dedupAux (t :: seen) rest

/-- Modelled from the spec: the keyword extractor `_extract_keywords` of
the absent source file `api/search_index_manager.py` (spec.md section 4.3):
tokenize, lower-case, drop stop words and short non-numeric tokens,
de-duplicate preserving extraction order.  Total, never fails. -/
def extract_keywords (q : String) : List String :=
  dedupAux [] ((tokenize q).filter keepToken)

/-- Modelled from the spec: two-decimal-place rendering of a relevance
score given in integer hundredths (spec.md section 4.2; the test suite
expects `score: 0.92` for `0.92`). -/
def formatScore (s : Nat) : String :=
  toString (s / 100) ++ "." ++ (if s % 100 < 10 then "0" else "") ++ toString (s % 100)

/-- Modelled from the spec: the separator line of repeated `=` characters
between hit sections (spec.md section 4.2; the test suite checks a run of
30 `=` characters). -/
def SEPARATOR : String :=
  String.mk (List.replicate 30 '=')

/-- Modelled from the spec: the trailing summary line for `n` hits
(spec.md section 4.2; the wording uses `sections` for every count). -/
def summaryLine (n : Nat) : String :=
  "SEARCH SUMMARY: Found " ++ toString n ++ " relevant document sections"

/-- Modelled from the spec: the output lines of one hit section, in order
(spec.md section 4.2): document line, score line, content line, separator. -/
def formatHitLines (h : SearchHit) : List String :=
  ["DOCUMENT: " ++ h.sourceTitle,
   "score: " ++ formatScore h.relevanceScore,
   "CONTENT: " ++ h.content,
   SEPARATOR]

/-- Modelled from the spec: the fixed-shape no-results block (spec.md
section 4.2): the literal markers plus the original question for
traceability. -/
def noResultsLines (q : String) : List String :=
  ["NO DOCUMENTS FOUND",
   "No relevant information in uploaded documents for the question: " ++ q]

/-- Modelled from the spec: the result formatter of the absent source file
`api/search_index_manager.py` (spec.md section 4.2), at line granularity:
the no-results block when `hits` is empty, otherwise one section per hit in
the given order followed by the summary line. -/
def formatResultsLines (q : String) (hits : List SearchHit) : List String :=
  if hits.isEmpty then noResultsLines q
  else (hits.map formatHitLines).flatten ++ [summaryLine hits.length]

/-- Modelled from the spec: joining output lines into the single text block
returned to the caller (spec.md section 3, `FormattedResult`). -/
def joinLines : List String → String
  | [] => ""
  | [l] => l
  | l :: r :: rest => l ++ "\n" ++ joinLines (r :: rest)

/-- Modelled from the spec: the result formatter as a single text value. -/
def formatResults (q : String) (hits : List SearchHit) : String :=
  joinLines (formatResultsLines q hits)

/-- Modelled from the spec: the query-execution-and-fallback controller of
`semantic_search` in the absent source file `api/search_index_manager.py`
(spec.md section 4.1): run the primary query; on a non-empty hit sequence
return it as-is; on an empty one derive keywords and run exactly one
fallback query (keywords joined by a single space), or skip the fallback
when no keywords were extracted; client failures propagate.  The first
component records the ordered list of query strings sent to the client. -/
def searchWithFallback (client : String → Except SearchError (List SearchRecord))
    (question : String) : List String × Except SearchError (List SearchHit) :=
  match client question with
  | .error e => ([question], .error e)
  | .ok recs =>
    let hits := recs.map recordToHit
    if hits.isEmpty then
      let kws := extract_keywords question
      if kws.isEmpty then ([question], .ok [])
      else
        let fb := String.intercalate " " kws
        match client fb with
        | .error e => ([question, fb], .error e)
        | .ok recs2 => ([question, fb], .ok (recs2.map recordToHit))
    else ([question], .ok hits)

/-- Modelled from the spec: the ordered list of query strings the
controller sends to the external client for one call. -/
def searchQueries (client : String → Except SearchError (List SearchRecord))
    (question : String) : List String :=
  (searchWithFallback client question).1

/-- Modelled from the spec: the final hit sequence of one controller call
(or the propagated client failure). -/
def searchHits (client : String → Except SearchError (List SearchRecord))
    (question : String) : Except SearchError (List SearchHit) :=
  (searchWithFallback client question).2

/-- Modelled from the spec: `semantic_search` / `performSearch` of the
absent source file `api/search_index_manager.py` (spec.md sections 4.1, 4.2
and 6): controller then formatter; client failures propagate unmodified. -/
def semantic_search (client : String → Except SearchError (List SearchRecord))
    (question : String) : Except SearchError String :=
  (searchHits client question).map (formatResults question)

/-- Modelled from the spec: the line-shape test for a document line
(a line of the form `DOCUMENT: <title>`; the marker is 10 characters). -/
def isDocLine (l : String) : Bool :=
  decide (l.data.take 10 = "DOCUMENT: ".data)

/-- Canonical record of the test suite (content of `sample.txt`). -/
def demoRecord : SearchRecord :=
  { token := some "The sky is yellow in TXTland.", title := some "sample.txt", score := some 95 }

/-- Canonical hit of the formatting test of the test suite. -/
def testHit : SearchHit :=
  { content := "Test content from document", sourceTitle := "test_document.txt",
    relevanceScore := 92 }

/-- Demo client whose primary query always succeeds with one record. -/
def demoClientPrimary : String → Except SearchError (List SearchRecord) :=
  fun _ => .ok [demoRecord]

/-- Demo client that returns nothing for the canonical question and one
record for every other query (so the fallback query succeeds). -/
def demoClientFallback : String → Except SearchError (List SearchRecord) :=
  fun q => if q = "What color is the sky in TXTland?" then .ok [] else .ok [demoRecord]

/-- Demo client that always yields no records. -/
def demoClientEmpty : String → Except SearchError (List SearchRecord) :=
  fun _ => .ok []

/-- Demo client that always raises a transport failure. -/
def demoClientError : String → Except SearchError (List SearchRecord) :=
  fun _ => .error { message := "transport failure" }

/-- Demo client that returns nothing for the canonical question and raises
a transport failure for every other query (so the fallback call fails). -/
def demoClientFallbackError : String → Except SearchError (List SearchRecord) :=
  fun q =>
    if q = "What color is the sky in TXTland?" then .ok []
    else .error { message := "fallback transport failure" }

-- Sanity checks on the canonical test inputs.
example : extract_keywords "What color is the sky in TXTland?" = ["color", "sky", "txtland"] := by
  decide
example : extract_keywords "Who is the president of DOCXistan?" = ["president", "docxistan"] := by
  decide
example : extract_keywords "How many tigers are in PDFzone?" = ["many", "tigers", "pdfzone"] := by
  decide
example : extract_keywords "is the" = [] := by decide
example : formatScore 92 = "0.92" := by decide
example : formatScore 5 = "0.05" := by decide
example : formatScore 100 = "1.00" := by decide
example : summaryLine 1 = "SEARCH SUMMARY: Found 1 relevant document sections" := by decide

/-! Helper lemmas about line shapes: the first character of every line the
formatter can emit is fixed by its kind, which separates the line kinds
from each other without any assumption on titles, contents or questions. -/

/-- Two strings with different first characters are different. -/
lemma ne_of_head_ne {s t : String} (h : s.data.head? ≠ t.data.head?) : s ≠ t :=
  fun e => h (by rw [e])

/-- The first character of an appended string is that of its left part,
when the left part is non-empty. -/
lemma head_append_of_head {p : String} (x : String) {c : Char}
    (hp : p.data.head? = some c) : (p ++ x).data.head? = some c := by
  rw [String.data_append]
  cases h : p.data with
  | nil => rw [h] at hp; cases hp
  | cons a as =>
    rw [h] at hp
    simp only [List.head?_cons, Option.some.injEq] at hp
    rw [List.cons_append, List.head?_cons, hp]

/-- First character of the document-line marker. -/
lemma head_doc : ("DOCUMENT: " : String).data.head? = some 'D' := rfl

/-- First character of the score-line marker. -/
lemma head_score : ("score: " : String).data.head? = some 's' := rfl

/-- First character of the content-line marker. -/
lemma head_content : ("CONTENT: " : String).data.head? = some 'C' := rfl

/-- First character of the no-relevant-information line marker. -/
lemma head_norel :
    ("No relevant information in uploaded documents for the question: " : String).data.head? =
      some 'N' := rfl

/-- First character of the summary-line marker. -/
lemma head_found : ("SEARCH SUMMARY: Found " : String).data.head? = some 'S' := rfl

/-- The summary line always starts with the character S. -/
lemma head_summaryLine (n : Nat) : (summaryLine n).data.head? = some 'S' := by
  unfold summaryLine
  exact head_append_of_head _ (head_append_of_head _ head_found)

/-- A line of the form DOCUMENT: title satisfies the document-line test. -/
lemma isDocLine_doc (t : String) : isDocLine ("DOCUMENT: " ++ t) = true := by
  simp only [isDocLine, String.data_append, decide_eq_true_eq]
  rfl

/-- A line whose first character is not D fails the document-line test. -/
lemma isDocLine_false_of_head {l : String} {c : Char} (hc : l.data.head? = some c)
    (hne : c ≠ 'D') : isDocLine l = false := by
  simp only [isDocLine, decide_eq_false_iff_not]
  intro h
  have h2 := congrArg List.head? h
  rw [List.head?_take] at h2
  simp only [OfNat.ofNat_ne_zero, if_false, hc] at h2
  have h3 : List.head? "DOCUMENT: ".data = some 'D' := rfl
  rw [h3] at h2
  exact hne (Option.some.inj h2)

/-- Score lines are not document lines. -/
lemma isDocLine_score (x : String) : isDocLine ("score: " ++ x) = false :=
  isDocLine_false_of_head (head_append_of_head x head_score) (by decide)

/-- Content lines are not document lines. -/
lemma isDocLine_content (x : String) : isDocLine ("CONTENT: " ++ x) = false :=
  isDocLine_false_of_head (head_append_of_head x head_content) (by decide)

/-- The separator line is not a document line. -/
lemma isDocLine_sep : isDocLine SEPARATOR = false := by decide

/-- The summary line is not a document line, whatever the count. -/
lemma isDocLine_summary (n : Nat) : isDocLine (summaryLine n) = false :=
  isDocLine_false_of_head (head_summaryLine n) (by decide)

/-- No line of the no-results block is a document line, whatever the question. -/
lemma isDocLine_noResults (q : String) : ∀ l ∈ noResultsLines q, isDocLine l = false := by
  intro l hl
  simp only [noResultsLines, List.mem_cons, List.not_mem_nil, or_false] at hl
  rcases hl with rfl | rfl
  · decide
  · exact isDocLine_false_of_head (head_append_of_head q head_norel) (by decide)

/-- No line of a hit section equals a summary line, whatever the count. -/
lemma formatHitLines_ne_summary (h : SearchHit) (m : Nat) :
    ∀ l ∈ formatHitLines h, l ≠ summaryLine m := by
  intro l hl
  simp only [formatHitLines, List.mem_cons, List.not_mem_nil, or_false] at hl
  have hs := head_summaryLine m
  rcases hl with rfl | rfl | rfl | rfl
  · exact ne_of_head_ne (by rw [head_append_of_head _ head_doc, hs]; decide)
  · exact ne_of_head_ne (by rw [head_append_of_head _ head_score, hs]; decide)
  · exact ne_of_head_ne (by rw [head_append_of_head _ head_content, hs]; decide)
  · exact ne_of_head_ne (by rw [hs]; decide)

/-- No line of a hit section is the no-documents marker line. -/
lemma formatHitLines_ne_noDocs (h : SearchHit) :
    ∀ l ∈ formatHitLines h, l ≠ "NO DOCUMENTS FOUND" := by
  intro l hl
  simp only [formatHitLines, List.mem_cons, List.not_mem_nil, or_false] at hl
  rcases hl with rfl | rfl | rfl | rfl
  · exact ne_of_head_ne (by rw [head_append_of_head _ head_doc]; decide)
  · exact ne_of_head_ne (by rw [head_append_of_head _ head_score]; decide)
  · exact ne_of_head_ne (by rw [head_append_of_head _ head_content]; decide)
  · decide

/-- Joining a line list starting with a non-empty line gives a non-empty block. -/
lemma joinLines_ne_empty {l : String} (rest : List String) (hl : l.length ≠ 0) :
    joinLines (l :: rest) ≠ "" := by
  cases rest with
  | nil =>
    intro h
    rw [joinLines] at h
    exact hl (by rw [h]; rfl)
  | cons r rs =>
    intro h
    rw [joinLines] at h
    have h2 := congrArg String.length h
    rw [String.length_append, String.length_append] at h2
    simp only [String.length_empty] at h2
    omega

/-! Structural lemmas about the formatter. -/

/-- On an empty hit sequence the formatter emits the no-results block. -/
lemma formatResultsLines_nil (q : String) : formatResultsLines q [] = noResultsLines q := rfl

/-- On a non-empty hit sequence the formatter emits the hit sections in
order followed by the summary line. -/
lemma formatResultsLines_of_ne (q : String) {hits : List SearchHit} (hne : hits ≠ []) :
    formatResultsLines q hits =
      (hits.map formatHitLines).flatten ++ [summaryLine hits.length] := by
  unfold formatResultsLines
  rw [if_neg]
  simpa [List.isEmpty_iff] using hne

/-- Every line of a hit section of a member hit occurs among the flattened
hit-section lines. -/
lemma mem_flatten_of_hit {hits : List SearchHit} {h : SearchHit} (hh : h ∈ hits)
    {l : String} (hl : l ∈ formatHitLines h) : l ∈ (hits.map formatHitLines).flatten :=
  List.mem_flatten.mpr ⟨formatHitLines h, List.mem_map_of_mem _ hh, hl⟩

/-- Every flattened hit-section line comes from the section of some hit. -/
lemma flatten_lines_mem {hits : List SearchHit} {l : String}
    (hl : l ∈ (hits.map formatHitLines).flatten) : ∃ h ∈ hits, l ∈ formatHitLines h := by
  obtain ⟨b, hb, hlb⟩ := List.mem_flatten.mp hl
  obtain ⟨h, hh, rfl⟩ := List.mem_map.mp hb
  exact ⟨h, hh, hlb⟩

/-- The summary line occurs exactly once in a non-empty formatted result. -/
lemma count_summary (q : String) {hits : List SearchHit} (hne : hits ≠ []) :
    (formatResultsLines q hits).count (summaryLine hits.length) = 1 := by
  rw [formatResultsLines_of_ne q hne, List.count_append]
  have h0 : (hits.map formatHitLines).flatten.count (summaryLine hits.length) = 0 := by
    rw [List.count_eq_zero]
    intro hmem
    obtain ⟨h, _, hl⟩ := flatten_lines_mem hmem
    exact formatHitLines_ne_summary h _ _ hl rfl
  rw [h0]
  simp

/-- The summary line is the last line of a non-empty formatted result. -/
lemma getLast_summary (q : String) {hits : List SearchHit} (hne : hits ≠ []) :
    (formatResultsLines q hits).getLast? = some (summaryLine hits.length) := by
  rw [formatResultsLines_of_ne q hne]
  exact List.getLast?_concat _

/-- Filtering one hit section for document lines leaves exactly its
document line. -/
lemma filter_doc_block (h : SearchHit) :
    (formatHitLines h).filter (fun l => isDocLine l) = ["DOCUMENT: " ++ h.sourceTitle] := by
  simp [formatHitLines, List.filter_cons, isDocLine_doc, isDocLine_score, isDocLine_content,
    isDocLine_sep]

/-- Filtering the flattened hit sections for document lines yields the
document lines of the hits, in hit order. -/
lemma filter_doc_flatten (hits : List SearchHit) :
    ((hits.map formatHitLines).flatten).filter (fun l => isDocLine l) =
      hits.map (fun h => "DOCUMENT: " ++ h.sourceTitle) := by
  induction hits with
  | nil => rfl
  | cons a t ih => simp [List.filter_append, filter_doc_block, ih]

/-- Filtering a non-empty formatted result for document lines yields the
document lines of the hits, in hit order. -/
lemma filter_doc_lines (q : String) {hits : List SearchHit} (hne : hits ≠ []) :
    (formatResultsLines q hits).filter (fun l => isDocLine l) =
      hits.map (fun h => "DOCUMENT: " ++ h.sourceTitle) := by
  rw [formatResultsLines_of_ne q hne, List.filter_append, filter_doc_flatten]
  simp [List.filter_cons, isDocLine_summary]

/-! Lemmas about the keyword extractor. -/

/-- Tokens emitted by the de-duplication pass were never seen before. -/
lemma dedupAux_not_seen : ∀ (l seen : List String), ∀ t ∈ dedupAux seen l, t ∉ seen := by
  intro l
  induction l with
  | nil => intro seen t ht; cases ht
  | cons a rest ih =>
    intro seen t ht
    rw [dedupAux] at ht
    by_cases ha : a ∈ seen
    · rw [if_pos ha] at ht
      exact ih seen t ht
    · rw [if_neg ha] at ht
      rcases List.mem_cons.mp ht with rfl | ht2
      · exact ha
      · intro hseen
        exact ih (a :: seen) t ht2 (List.mem_cons_of_mem a hseen)

/-- The de-duplication pass emits a duplicate-free list. -/
lemma dedupAux_nodup : ∀ (l seen : List String), (dedupAux seen l).Nodup := by
  intro l
  induction l with
  | nil => intro seen; exact List.nodup_nil
  | cons a rest ih =>
    intro seen
    rw [dedupAux]
    by_cases ha : a ∈ seen
    · rw [if_pos ha]; exact ih seen
    · rw [if_neg ha]
      refine List.nodup_cons.mpr ⟨?_, ih (a :: seen)⟩
      intro hmem
      exact dedupAux_not_seen rest (a :: seen) a hmem (List.mem_cons_self a seen)

/-- The de-duplication pass only emits tokens of its input. -/
lemma dedupAux_subset : ∀ (l seen : List String), ∀ t ∈ dedupAux seen l, t ∈ l := by
  intro l
  induction l with
  | nil => intro seen t ht; cases ht
  | cons a rest ih =>
    intro seen t ht
    rw [dedupAux] at ht
    by_cases ha : a ∈ seen
    · rw [if_pos ha] at ht
      exact List.mem_cons_of_mem a (ih seen t ht)
    · rw [if_neg ha] at ht
      rcases List.mem_cons.mp ht with rfl | ht2
      · exact List.mem_cons_self t rest
      · exact List.mem_cons_of_mem a (ih (a :: seen) t ht2)

/-- Every extracted keyword passed the filtering policy. -/
lemma extract_keywords_keep {q : String} {t : String} (ht : t ∈ extract_keywords q) :
    keepToken t = true := by
  have h1 := dedupAux_subset _ _ t ht
  exact List.of_mem_filter h1

/-- Every extracted keyword is a token of the question. -/
lemma extract_keywords_token {q : String} {t : String} (ht : t ∈ extract_keywords q) :
    t ∈ tokenize q := by
  have h1 := dedupAux_subset _ _ t ht
  exact List.mem_of_mem_filter h1

/-- Character-level invariant of the tokenizer: every character of every
token satisfies any property enjoyed by lower-cased alphanumeric characters. -/
lemma splitTokens_chars (P : Char → Prop) (hP : ∀ c : Char, c.isAlphanum = true → P c.toLower) :
    ∀ (cs cur : List Char), (∀ c ∈ cur, P c) →
      ∀ t ∈ splitTokens cs cur, ∀ c ∈ t.data, P c := by
  intro cs
  induction cs with
  | nil =>
    intro cur hcur t ht c hc
    rw [splitTokens] at ht
    by_cases h : cur.isEmpty
    · rw [if_pos h] at ht; cases ht
    · rw [if_neg h] at ht
      rcases List.mem_cons.mp ht with rfl | h2
      · exact hcur c (List.mem_reverse.mp hc)
      · cases h2
  | cons a rest ih =>
    intro cur hcur t ht c hc
    rw [splitTokens] at ht
    by_cases h : a.isAlphanum
    · rw [if_pos h] at ht
      refine ih (a.toLower :: cur) ?_ t ht c hc
      intro x hx
      rcases List.mem_cons.mp hx with rfl | hx2
      · exact hP a h
      · exact hcur x hx2
    · rw [if_neg h] at ht
      by_cases h2 : cur.isEmpty
      · rw [if_pos h2] at ht
        exact ih [] (by intro x hx; cases hx) t ht c hc
      · rw [if_neg h2] at ht
        rcases List.mem_cons.mp ht with rfl | h3
        · exact hcur c (List.mem_reverse.mp hc)
        · exact ih [] (by intro x hx; cases hx) t h3 c hc

/-- Every character of every token of a question is the lower-casing of
some alphanumeric character. -/
lemma tokenize_chars {q : String} {t : String} (ht : t ∈ tokenize q) :
    ∀ c ∈ t.data, ∃ c₀ : Char, c₀.isAlphanum = true ∧ c = c₀.toLower := by
  intro c hc
  exact splitTokens_chars (fun c : Char => ∃ c₀ : Char, c₀.isAlphanum = true ∧ c = c₀.toLower)
    (fun c₀ h => ⟨c₀, h, rfl⟩) q.data [] (by intro x hx; cases hx) t ht c hc

/-! Unfolding lemmas for the fallback controller. -/

/-- A failing primary call short-circuits the controller. -/
lemma searchWithFallback_error {client : String → Except SearchError (List SearchRecord)}
    {q : String} {e : SearchError} (h : client q = .error e) :
    searchWithFallback client q = ([q], .error e) := by
  unfold searchWithFallback
  rw [h]

/-- A non-empty primary result is returned as-is after record mapping. -/
lemma searchWithFallback_hit {client : String → Except SearchError (List SearchRecord)}
    {q : String} {r : SearchRecord} {rs : List SearchRecord} (h : client q = .ok (r :: rs)) :
    searchWithFallback client q = ([q], .ok ((r :: rs).map recordToHit)) := by
  unfold searchWithFallback
  rw [h]
  simp

/-- An empty primary result with no extracted keywords skips the fallback. -/
lemma searchWithFallback_empty_noKw {client : String → Except SearchError (List SearchRecord)}
    {q : String} (h : client q = .ok []) (hk : extract_keywords q = []) :
    searchWithFallback client q = ([q], .ok []) := by
  unfold searchWithFallback
  rw [h]
  simp [hk]

/-- An empty primary result with keywords triggers exactly one fallback
query; a failing fallback call propagates its error. -/
lemma searchWithFallback_fb_error {client : String → Except SearchError (List SearchRecord)}
    {q : String} {k : String} {ks : List String} {e : SearchError} (h1 : client q = .ok [])
    (hk : extract_keywords q = k :: ks)
    (h2 : client (String.intercalate " " (k :: ks)) = .error e) :
    searchWithFallback client q = ([q, String.intercalate " " (k :: ks)], .error e) := by
  unfold searchWithFallback
  rw [h1]
  simp [hk, h2]

/-- An empty primary result with keywords triggers exactly one fallback
query; its results are returned as-is after record mapping. -/
lemma searchWithFallback_fb_ok {client : String → Except SearchError (List SearchRecord)}
    {q : String} {k : String} {ks : List String} {recs2 : List SearchRecord}
    (h1 : client q = .ok []) (hk : extract_keywords q = k :: ks)
    (h2 : client (String.intercalate " " (k :: ks)) = .ok recs2) :
    searchWithFallback client q =
      ([q, String.intercalate " " (k :: ks)], .ok (recs2.map recordToHit)) := by
  unfold searchWithFallback
  rw [h1]
  simp [hk, h2]

/-- Explicit cons shape of a non-empty formatted result. -/
lemma formatResultsLines_cons_shape (q : String) (h : SearchHit) (t : List SearchHit) :
    formatResultsLines q (h :: t) =
      ("DOCUMENT: " ++ h.sourceTitle) ::
        ("score: " ++ formatScore h.relevanceScore) ::
          ("CONTENT: " ++ h.content) :: SEPARATOR ::
            ((t.map formatHitLines).flatten ++ [summaryLine (h :: t).length]) := by
  rw [formatResultsLines_of_ne q (by simp)]
  simp [formatHitLines]

/-! Claim theorems. -/

/-- C1: for every question, if the primary search call returns an empty hit
sequence and the extracted keywords are non-empty, the external client is
invoked exactly twice (the primary query, then one fallback query built by
joining the extracted keywords with a single space) and never a third time;
if the primary sequence is empty and no keywords were extracted, the client
is invoked exactly once and the result is treated as empty; if the primary
sequence is non-empty, the client is invoked exactly once. -/
theorem C1_call_counts (client : String → Except SearchError (List SearchRecord)) (q : String) :
    (∀ r rs, client q = .ok (r :: rs) → searchQueries client q = [q]) ∧
    (client q = .ok [] → extract_keywords q ≠ [] →
      searchQueries client q = [q, String.intercalate " " (extract_keywords q)]) ∧
    (client q = .ok [] → extract_keywords q = [] →
      searchQueries client q = [q] ∧ searchHits client q = .ok []) := by
  refine ⟨?_, ?_, ?_⟩
  · intro r rs h
    simp [searchQueries, searchWithFallback_hit h]
  · intro h hk
    cases hkc : extract_keywords q with
    | nil => exact absurd hkc hk
    | cons k ks =>
      cases h2 : client (String.intercalate " " (k :: ks)) with
      | error e => simp [searchQueries, searchWithFallback_fb_error h hkc h2]
      | ok recs2 => simp [searchQueries, searchWithFallback_fb_ok h hkc h2]
  · intro h hk
    constructor
    · simp [searchQueries, searchWithFallback_empty_noKw h hk]
    · simp [searchHits, searchWithFallback_empty_noKw h hk]

/-- Witness for C1: on the canonical question, with a client that yields no
primary hits, exactly the primary query and the keyword fallback query are
sent, in that order. -/
theorem C1_call_counts_witness :
    searchQueries demoClientFallback "What color is the sky in TXTland?" =
      ["What color is the sky in TXTland?", "color sky txtland"] := by
  have h := (C1_call_counts demoClientFallback "What color is the sky in TXTland?").2.1
    (by rfl) (by decide)
  exact h.trans (by decide)

/-- C6: a transport/timeout/authentication failure of the external client,
on the primary call or on the fallback call, propagates unmodified to the
caller of `semantic_search`: no retry is made (the query trace stops at the
failing call), the error triggers no fallback, and the error is never
converted into a synthetic no-documents result (the returned value is the
error itself, not an `ok`). -/
theorem C6_error_propagation (client : String → Except SearchError (List SearchRecord))
    (q : String) (e : SearchError) :
    (client q = .error e →
      semantic_search client q = .error e ∧ searchQueries client q = [q]) ∧
    (∀ k ks, client q = .ok [] → extract_keywords q = k :: ks →
      client (String.intercalate " " (k :: ks)) = .error e →
      semantic_search client q = .error e ∧
      searchQueries client q = [q, String.intercalate " " (k :: ks)]) := by
  constructor
  · intro h
    constructor
    · simp [semantic_search, searchHits, searchWithFallback_error h, Except.map]
    · simp [searchQueries, searchWithFallback_error h]
  · intro k ks h1 hk h2
    constructor
    · simp [semantic_search, searchHits, searchWithFallback_fb_error h1 hk h2, Except.map]
    · simp [searchQueries, searchWithFallback_fb_error h1 hk h2]

/-- Witness for C6: a client that always fails makes `semantic_search`
return exactly that failure. -/
theorem C6_error_propagation_witness :
    semantic_search demoClientError "Test query" = .error { message := "transport failure" } :=
  ((C6_error_propagation demoClientError "Test query"
    { message := "transport failure" }).1 (by rfl)).1

/-- C7: the document sections of the formatted output appear in exactly the
order in which the client emitted the hits (the document-line projection of
the output lines is the in-order map over the hits); the controller never
re-sorts, deduplicates or merges: a non-empty primary result is returned
as-is (mapped record by record, in order), and on fallback the fallback
result alone is returned as-is. -/
theorem C7_order_preserved (client : String → Except SearchError (List SearchRecord))
    (q : String) :
    (∀ hits : List SearchHit, hits ≠ [] →
      (formatResultsLines q hits).filter (fun l => isDocLine l) =
        hits.map (fun h => "DOCUMENT: " ++ h.sourceTitle)) ∧
    (∀ r rs, client q = .ok (r :: rs) →
      searchHits client q = .ok ((r :: rs).map recordToHit)) ∧
    (∀ k ks recs2, client q = .ok [] → extract_keywords q = k :: ks →
      client (String.intercalate " " (k :: ks)) = .ok recs2 →
      searchHits client q = .ok (recs2.map recordToHit)) := by
  refine ⟨?_, ?_, ?_⟩
  · intro hits hne
    exact filter_doc_lines q hne
  · intro r rs h
    simp [searchHits, searchWithFallback_hit h]
  · intro k ks recs2 h1 hk h2
    simp [searchHits, searchWithFallback_fb_ok h1 hk h2]

/-- Witness for C7: on a one-hit result the document-line projection of the
formatted output is exactly the one document line of that hit. -/
theorem C7_order_preserved_witness :
    (formatResultsLines "Test query" [testHit]).filter (fun l => isDocLine l) =
      [testHit].map (fun h => "DOCUMENT: " ++ h.sourceTitle) :=
  (C7_order_preserved demoClientPrimary "Test query").1 [testHit] (by decide)

/-- C3: for every non-empty hit sequence of length N, the formatter emits
for each hit a DOCUMENT line with its source title, a score line carrying
the relevance score formatted to two decimal places, a CONTENT line with
its content, and the separator line of repeated equals characters; and the
output carries exactly one trailing summary line reading
SEARCH SUMMARY: Found N relevant document sections, with the literal count
substituted (the word sections also when N is one). -/
theorem C3_per_hit_formatting (q : String) (hits : List SearchHit) (hne : hits ≠ []) :
    (∀ h ∈ hits,
      ("DOCUMENT: " ++ h.sourceTitle) ∈ formatResultsLines q hits ∧
      ("score: " ++ formatScore h.relevanceScore) ∈ formatResultsLines q hits ∧
      ("CONTENT: " ++ h.content) ∈ formatResultsLines q hits ∧
      SEPARATOR ∈ formatResultsLines q hits) ∧
    (formatResultsLines q hits).getLast? = some (summaryLine hits.length) ∧
    (formatResultsLines q hits).count (summaryLine hits.length) = 1 ∧
    summaryLine hits.length =
      "SEARCH SUMMARY: Found " ++ toString hits.length ++ " relevant document sections" := by
  refine ⟨?_, getLast_summary q hne, count_summary q hne, rfl⟩
  intro h hh
  rw [formatResultsLines_of_ne q hne]
  refine ⟨?_, ?_, ?_, ?_⟩ <;>
    exact List.mem_append_left _ (mem_flatten_of_hit hh (by simp [formatHitLines]))

/-- Witness for C3: for the one-hit formatting case of the test suite, the
document line is present and the summary line occurs exactly once. -/
theorem C3_per_hit_formatting_witness :
    ("DOCUMENT: " ++ testHit.sourceTitle) ∈ formatResultsLines "Test query" [testHit] ∧
    (formatResultsLines "Test query" [testHit]).count (summaryLine 1) = 1 := by
  have h := C3_per_hit_formatting "Test query" [testHit] (by decide)
  exact ⟨(h.1 testHit (by decide)).1, h.2.2.1⟩

/-- C4: for every question, when the final hit sequence is empty the
formatter returns the fixed-shape no-results block: it contains the literal
markers NO DOCUMENTS FOUND and No relevant information in uploaded
documents, contains the original question text, and none of its lines is a
DOCUMENT section. -/
theorem C4_no_results_block (q : String) :
    formatResultsLines q [] = noResultsLines q ∧
    "NO DOCUMENTS FOUND" ∈ noResultsLines q ∧
    ("No relevant information in uploaded documents for the question: " ++ q) ∈
      noResultsLines q ∧
    (∀ l ∈ noResultsLines q, isDocLine l = false) ∧
    formatResults q [] =
      "NO DOCUMENTS FOUND" ++ "\n" ++
        ("No relevant information in uploaded documents for the question: " ++ q) := by
  refine ⟨rfl, ?_, ?_, isDocLine_noResults q, rfl⟩
  · simp [noResultsLines]
  · simp [noResultsLines]

/-- Witness for C4: the no-results block of the test-suite question
contains the marker and has no document line. -/
theorem C4_no_results_block_witness :
    isDocLine "NO DOCUMENTS FOUND" = false ∧
    "NO DOCUMENTS FOUND" ∈ noResultsLines "What is the capital of Nonexistentland?" :=
  ⟨(C4_no_results_block "What is the capital of Nonexistentland?").2.2.2.1
      "NO DOCUMENTS FOUND" (by decide),
    (C4_no_results_block "What is the capital of Nonexistentland?").2.1⟩

/-- C8: mapping a client record onto a SearchHit never raises: it is a
total function, any missing field is substituted with the type's zero-value
(the empty string for the text fields and zero for the score), present
fields are taken as-is, and the resulting hit is processed normally by the
search pipeline. -/
theorem C8_record_mapping (r : SearchRecord) :
    (r.token = none → (recordToHit r).content = "") ∧
    (r.title = none → (recordToHit r).sourceTitle = "") ∧
    (r.score = none → (recordToHit r).relevanceScore = 0) ∧
    (∀ c t s, r = { token := some c, title := some t, score := some s } →
      recordToHit r = { content := c, sourceTitle := t, relevanceScore := s }) ∧
    (∀ q client, client q = .ok [r] → searchHits client q = .ok [recordToHit r]) := by
  refine ⟨?_, ?_, ?_, ?_, ?_⟩
  · intro h; simp [recordToHit, h]
  · intro h; simp [recordToHit, h]
  · intro h; simp [recordToHit, h]
  · intro c t s h; simp [recordToHit, h]
  · intro q client h
    simpa using congrArg Prod.snd (searchWithFallback_hit h)

/-- Witness for C8: the fully missing record maps to the zero-valued hit. -/
theorem C8_record_mapping_witness :
    (recordToHit {}).content = "" ∧ (recordToHit {}).sourceTitle = "" ∧
    (recordToHit {}).relevanceScore = 0 :=
  ⟨(C8_record_mapping {}).1 rfl, (C8_record_mapping {}).2.1 rfl,
    (C8_record_mapping {}).2.2.1 rfl⟩

/-- C9: both pure functions of the core are deterministic as two-run
statements: two invocations of the formatter on equal question and hit
sequence return identical texts, and two invocations of the keyword
extractor on equal input return equal keyword sequences.  Neither performs
any input/output nor uses randomness: in this embedding both are plain
functions of their arguments. -/
theorem C9_determinism :
    (∀ (q₁ q₂ : String) (hits₁ hits₂ : List SearchHit), q₁ = q₂ → hits₁ = hits₂ →
      formatResults q₁ hits₁ = formatResults q₂ hits₂) ∧
    (∀ q₁ q₂ : String, q₁ = q₂ → extract_keywords q₁ = extract_keywords q₂) := by
  constructor
  · intro q₁ q₂ hits₁ hits₂ hq hh
    rw [hq, hh]
  · intro q₁ q₂ hq
    rw [hq]

/-- Witness for C9: two runs on the canonical question agree. -/
theorem C9_determinism_witness :
    extract_keywords "What color is the sky in TXTland?" =
      extract_keywords "What color is the sky in TXTland?" :=
  C9_determinism.2 "What color is the sky in TXTland?" "What color is the sky in TXTland?" rfl

/-- C10: in every formatted result with at least one hit, the separator
line is present, and it is a run of at least 30 consecutive equals
characters (in this model exactly 30, matching the separator the test
suite checks for). -/
theorem C10_separator (q : String) (hits : List SearchHit) (hne : hits ≠ []) :
    SEPARATOR ∈ formatResultsLines q hits ∧
    SEPARATOR.data = List.replicate 30 '=' ∧
    30 ≤ SEPARATOR.length := by
  refine ⟨?_, rfl, by decide⟩
  cases hits with
  | nil => exact absurd rfl hne
  | cons a t =>
    rw [formatResultsLines_of_ne q hne]
    exact List.mem_append_left _
      (mem_flatten_of_hit (List.mem_cons_self a t) (by simp [formatHitLines]))

/-- Witness for C10: the separator appears in the one-hit formatted result
of the test suite. -/
theorem C10_separator_witness :
    SEPARATOR ∈ formatResultsLines "Test query" [testHit] ∧ 30 ≤ SEPARATOR.length :=
  ⟨(C10_separator "Test query" [testHit] (by decide)).1,
    (C10_separator "Test query" [testHit] (by decide)).2.2⟩

/-- C5: for every question, the keyword extractor returns a duplicate-free
sequence of lower-cased tokens with stop words removed; tokens of length at
most 2 are dropped unless numeric; the same token never appears twice; the
function never fails (it is total); on the canonical question it excludes
what, is and the, and includes exactly color, sky and txtland; a question
with no remaining tokens yields the empty sequence. -/
theorem C5_keyword_policy :
    (∀ q : String, (extract_keywords q).Nodup) ∧
    (∀ q : String, ∀ t ∈ extract_keywords q, t ∉ STOP_WORDS) ∧
    (∀ q : String, ∀ t ∈ extract_keywords q,
      2 < t.length ∨ (t.data ≠ [] ∧ ∀ c ∈ t.data, c.isDigit = true)) ∧
    (∀ q : String, ∀ t ∈ extract_keywords q,
      ∀ c ∈ t.data, ∃ c₀ : Char, c₀.isAlphanum = true ∧ c = c₀.toLower) ∧
    extract_keywords "What color is the sky in TXTland?" = ["color", "sky", "txtland"] ∧
    extract_keywords "is the" = [] := by
  refine ⟨fun q => dedupAux_nodup _ _, ?_, ?_, ?_, by decide, by decide⟩
  · intro q t ht
    have hk := extract_keywords_keep ht
    simp only [keepToken, Bool.and_eq_true, decide_eq_true_eq] at hk
    exact hk.1
  · intro q t ht
    have hk := extract_keywords_keep ht
    simp only [keepToken, Bool.and_eq_true, Bool.or_eq_true, decide_eq_true_eq] at hk
    rcases hk.2 with h | h
    · exact Or.inl h
    · right
      simp only [isNumericTok, Bool.and_eq_true, List.all_eq_true] at h
      refine ⟨?_, h.2⟩
      intro hnil
      rw [hnil] at h
      simp at h
  · intro q t ht c hc
    exact tokenize_chars (extract_keywords_token ht) c hc

/-- Witness for C5: the canonical content token is extracted and is not a
stop word. -/
theorem C5_keyword_policy_witness :
    "color" ∈ extract_keywords "What color is the sky in TXTland?" ∧
    "color" ∉ STOP_WORDS :=
  ⟨by decide,
    C5_keyword_policy.2.1 "What color is the sky in TXTland?" "color" (by decide)⟩

/-- C2: whenever the client raises no exception, the text returned by
`semantic_search` is non-empty, and its line sequence contains either the
no-documents block (the NO DOCUMENTS FOUND marker with no DOCUMENT line
anywhere) or at least one DOCUMENT line followed by the trailing SEARCH
SUMMARY line (with no NO DOCUMENTS FOUND marker anywhere) — never neither
and never both. -/
theorem C2_formatted_invariant (client : String → Except SearchError (List SearchRecord))
    (q : String) (out : String) (h : semantic_search client q = .ok out) :
    out ≠ "" ∧
    ∃ hits : List SearchHit, searchHits client q = .ok hits ∧
      out = joinLines (formatResultsLines q hits) ∧
      (("NO DOCUMENTS FOUND" ∈ formatResultsLines q hits ∧
          ∀ l ∈ formatResultsLines q hits, isDocLine l = false) ∨
        ((∃ l ∈ formatResultsLines q hits, isDocLine l = true) ∧
          (formatResultsLines q hits).getLast? = some (summaryLine hits.length) ∧
          "NO DOCUMENTS FOUND" ∉ formatResultsLines q hits)) := by
  cases hh : searchHits client q with
  | error e =>
    unfold semantic_search at h
    rw [hh] at h
    simp [Except.map] at h
  | ok hits =>
    unfold semantic_search at h
    rw [hh] at h
    simp only [Except.map, Except.ok.injEq] at h
    have hout : out = joinLines (formatResultsLines q hits) := h.symm
    cases hits with
    | nil =>
      refine ⟨?_, [], rfl, hout, Or.inl ⟨?_, isDocLine_noResults q⟩⟩
      · rw [hout, formatResultsLines_nil, noResultsLines]
        exact joinLines_ne_empty _ (by decide)
      · rw [formatResultsLines_nil]
        simp [noResultsLines]
    | cons a t =>
      refine ⟨?_, a :: t, rfl, hout,
        Or.inr ⟨⟨"DOCUMENT: " ++ a.sourceTitle, ?_, isDocLine_doc _⟩,
          getLast_summary q (by simp), ?_⟩⟩
      · rw [hout, formatResultsLines_cons_shape]
        apply joinLines_ne_empty
        rw [String.length_append]
        have h10 : ("DOCUMENT: " : String).length = 10 := by decide
        omega
      · rw [formatResultsLines_cons_shape]
        exact List.mem_cons_self _ _
      · rw [formatResultsLines_of_ne q (by simp)]
        intro hmem
        rcases List.mem_append.mp hmem with hmem1 | hmem2
        · obtain ⟨b, _, hl⟩ := flatten_lines_mem hmem1
          exact formatHitLines_ne_noDocs b _ hl rfl
        · rw [List.mem_singleton] at hmem2
          exact ne_of_head_ne (by rw [head_summaryLine]; decide) hmem2

/-- Witness for C2: the canonical one-hit run returns a non-empty block. -/
theorem C2_formatted_invariant_witness :
    formatResults "What color is the sky in TXTland?" [recordToHit demoRecord] ≠ "" :=
  (C2_formatted_invariant demoClientPrimary "What color is the sky in TXTland?"
    (formatResults "What color is the sky in TXTland?" [recordToHit demoRecord]) rfl).1
